import Mathlib

/-!
Shallow embedding of the test lifecycle and grading subsystem of the
Interview-test-platform repository (FastAPI/SQLAlchemy backend), together
with proofs about the claims of its specification.

The embedding follows the source files:
  - `app/models.py`           (SQLAlchemy table rows → Lean structures)
  - `app/schemas.py`          (pydantic request/response schemas)
  - `app/routes/candidates.py` (submit_test, get_candidate_result,
                                get_all_results, format_time)
  - `app/routes/test.py`      (generate_test_code, create_test)
  - `app/routes/questions.py` (update_question, delete_question)

Conventions of the embedding:
  - the relational store is a `DB` record of row lists; a route handler is a
    function `DB → input → outcome × DB` (the second component is the store
    after the request, i.e. after any committed writes);
  - SQLAlchemy `query(...).filter(cond).first()` is `List.find?` over the row
    list in insertion order;
  - Python `dict` built by a comprehension keyed on `str(q["question_id"])`
    is looked up with last-binding-wins semantics (`reverse.find?`);
  - Python string truthiness plus `.strip()` emptiness (`not s or not
    s.strip()`) is `pyBlank`; `.strip()` is `pyStrip` and `.upper()` is
    `pyUpper`, defined structurally over the character list;
  - a Python `AttributeError` escaping the handler (an HTTP 500) is an
    explicit `attrError` outcome constructor; an attribute access that the
    declared class does not define is modelled by a function returning `none`;
  - machine integers are `Int`/`Nat` (no overflow concerns arise: Python ints
    are unbounded); fractional arithmetic (percentages) is over `ℚ`;
  - server-generated timestamps are a `Nat` clock field `now` on the store;
    `created_at` columns that no claim depends on are omitted.
-/

/-- Python `str.upper()` restricted to the ASCII data of this app. -/
def pyUpper (s : String) : String := String.mk (s.data.map Char.toUpper)

/-- Python `str.strip()`: drop leading and trailing whitespace (the app's
data is ASCII, where Python's and Lean's whitespace classes agree). -/
def pyStrip (s : String) : String :=
  String.mk
    (((s.data.dropWhile Char.isWhitespace).reverse.dropWhile
        Char.isWhitespace).reverse)

/-- Python truthiness-or-blank test `not s or not s.strip()`:
`s` is empty or whitespace-only. -/
def pyBlank (s : String) : Bool := pyStrip s == ""

/-- Python `int()` truncation toward zero, on an exact rational. -/
def pyInt (q : ℚ) : ℤ := if q < 0 then -⌊-q⌋ else ⌊q⌋

/-- Python `round` to the nearest integer with ties to even
(banker's rounding), on an exact rational. -/
def pyRoundHalfEven (q : ℚ) : ℤ :=
  if q - ⌊q⌋ < 1/2 then ⌊q⌋
  else if 1/2 < q - ⌊q⌋ then ⌊q⌋ + 1
  else if ⌊q⌋ % 2 = 0 then ⌊q⌋ else ⌊q⌋ + 1

/-- Python `round(x, 2)`: round to two decimal places (ties to even). -/
def round2 (q : ℚ) : ℚ := (pyRoundHalfEven (q * 100) : ℚ) / 100

/-- Insertion-ordered mapping of option key → option text
(Python `dict[str, str]`, schemas.py `options`). -/
abbrev OptionsDict := List (String × String)

/-- schemas.py `QuestionCategory`: the `category` object inside a frozen
snapshot entry (id, name, optional subcategory label). -/
structure QuestionCategory where
  id : Int
  name : String
  subcategory : Option String
deriving DecidableEq

/-- schemas.py `TestQuestionData`: one frozen question record inside a
test's `questions_data` snapshot. -/
structure TestQuestionData where
  question_id : Int
  answer : String
  options : OptionsDict
  category : QuestionCategory
  question : String
  difficulty : String
  user_id : Int
deriving DecidableEq

/-- models.py `Test` row.  The `questions_data` Text column holds the JSON
serialization of a `List TestQuestionData`; the embedding stores the parsed
form directly (candidates.py always `json.loads`s it right after reading). -/
structure Test where
  id : Int
  test_code : String
  questions_data : List TestQuestionData
  user_id : Int
deriving DecidableEq

/-- models.py `Candidate` row: id, name, unique email.
Note: the model declares NO `test_id` column ("No direct test relationship -
candidate can take multiple tests"). -/
structure Candidate where
  id : Int
  name : String
  email : String
deriving DecidableEq

/-- One entry of the validated-answers array stored on a `Response`
(candidates.py submit_test builds these dicts). -/
structure AnswerRecord where
  questionId : String
  selected : String
  correct : String
  isCorrect : Bool
deriving DecidableEq

/-- models.py `Response` row.  `answers` holds the parsed form of the JSON
array of validated answers; `answered_at` is the server timestamp. -/
structure Response where
  id : Int
  candidate_id : Int
  test_id : Int
  answers : List AnswerRecord
  score : Int
  time_taken : Int
  answered_at : Nat
deriving DecidableEq

/-- models.py `Question` row (live question bank). `options` is stored as a
JSON string in the column; the embedding stores the parsed dict. -/
structure Question where
  id : Int
  category_id : Int
  sub_category_id : Option Int
  question_text : String
  options : OptionsDict
  correct_option : String
  difficulty : String
  user_id : Int
deriving DecidableEq

/-- models.py `Category` row. -/
structure Category where
  id : Int
  name : String
  description : Option String
  user_id : Int
deriving DecidableEq

/-- The relational store: one list of rows per table, in insertion order,
plus autoincrement counters and the server clock used for timestamps. -/
structure DB where
  categories : List Category
  questions : List Question
  tests : List Test
  candidates : List Candidate
  responses : List Response
  nextQuestionId : Int
  nextCandidateId : Int
  nextResponseId : Int
  now : Nat
deriving DecidableEq

/-- schemas.py `AnswerItem`: one submitted `(questionId, selected)` pair. -/
structure AnswerItem where
  questionId : String
  selected : String
deriving DecidableEq

/-- schemas.py `CandidateCreate`: the body of `POST /candidates/submit`. -/
structure CandidateCreate where
  testId : String
  name : String
  email : String
  timeTaken : Int
  answers : List AnswerItem
deriving DecidableEq

/-- Outcome of `POST /candidates/submit` (candidates.py submit_test):
a 400, a 404, or the 200 confirmation payload. -/
inductive SubmitResult where
  | badRequest (error : String)
  | notFound (error : String)
  | ok (response_id candidate_id : Int) (name email test_code : String)
       (time_taken : Int) (score : String) (answered_at : Nat)
deriving DecidableEq

/-- Whether a submit outcome is the 200 success payload. -/
def SubmitResult.isOk : SubmitResult → Bool
  | .ok .. => true
  | _ => false

/-- candidates.py line 92: `questions_map = {str(q["question_id"]): q for q in
questions_data}` followed by `.get(key)`: a dict comprehension keeps the LAST
binding for a duplicated key, hence the lookup scans the reversed list. -/
def snapshotLookup (qd : List TestQuestionData) (qid : String) :
    Option TestQuestionData :=
  qd.reverse.find? (fun q => toString q.question_id == qid)

/-- candidates.py lines 66-74: 1-based position of the first submitted answer
whose `selected` is empty/whitespace-only (`enumerate(..., start=1)`). -/
def firstUnanswered : List AnswerItem → Nat → Option Nat
  | [], _ => none
  | a :: rest, idx =>
      if pyBlank a.selected then some idx else firstUnanswered rest (idx + 1)

/-- Body of one iteration of the grading loop (candidates.py lines 96-116):
look the submitted answer up in the snapshot; if found, normalize and compare;
if the id is unknown, produce no record. -/
def gradeItem (qd : List TestQuestionData) (a : AnswerItem) :
    Option AnswerRecord :=
  match snapshotLookup qd a.questionId with
  | none => none
  | some q =>
      let selected_option := pyUpper (pyStrip a.selected)
      let correct_answer := pyUpper q.answer
      some { questionId := a.questionId
             selected := selected_option
             correct := correct_answer
             isCorrect := selected_option == correct_answer }

/-- The grading loop of candidates.py lines 93-116: walk the submitted
answers, accumulating the `validated_answers` list and `correct_count`. -/
def gradeLoop (qd : List TestQuestionData) :
    List AnswerItem → List AnswerRecord × Int → List AnswerRecord × Int
  | [], acc => acc
  | a :: rest, (vs, c) =>
      match gradeItem qd a with
      | none => gradeLoop qd rest (vs, c)
      | some rec => gradeLoop qd rest (vs ++ [rec], c + if rec.isCorrect then 1 else 0)

/-- Specification-side predicate: the submitted answer's id occurs in the
frozen snapshot (the dict lookup succeeds). -/
def answerMatches (qd : List TestQuestionData) (a : AnswerItem) : Bool :=
  (snapshotLookup qd a.questionId).isSome

/-- Specification-side predicate: the submitted answer matches a frozen
question and its trimmed, uppercased selection equals the uppercased frozen
answer. -/
def answerCorrect (qd : List TestQuestionData) (a : AnswerItem) : Bool :=
  match snapshotLookup qd a.questionId with
  | none => false
  | some q => pyUpper (pyStrip a.selected) == pyUpper q.answer

/-- The success path of submit_test after all four validations pass
(candidates.py lines 76-148): resolve or create the candidate by email,
grade, persist one `Response`, and build the confirmation payload. -/
def acceptSubmission (db : DB) (sub : CandidateCreate) (test : Test) :
    SubmitResult × DB :=
  let found := db.candidates.find? (fun c => c.email == sub.email)
  let cand : Candidate :=
    match found with
    | some c => c
    | none => { id := db.nextCandidateId, name := pyStrip sub.name, email := sub.email }
  let db1 : DB :=
    match found with
    | some _ => db
    | none => { db with candidates := db.candidates ++ [cand]
                        nextCandidateId := db.nextCandidateId + 1 }
  let graded := gradeLoop test.questions_data sub.answers ([], 0)
  let resp : Response :=
    { id := db1.nextResponseId
      candidate_id := cand.id
      test_id := test.id
      answers := graded.1
      score := graded.2
      time_taken := sub.timeTaken
      answered_at := db1.now }
  let db2 : DB :=
    { db1 with responses := db1.responses ++ [resp]
               nextResponseId := db1.nextResponseId + 1 }
  (.ok resp.id cand.id cand.name cand.email test.test_code resp.time_taken
     (toString graded.2 ++ "/" ++ toString graded.1.length) resp.answered_at,
   db2)

/-- candidates.py submit_test (`POST /candidates/submit`), in source order:
empty-name check (400), test-code resolution (404), answer-count check (400),
empty-selection check (400), then the success path.  Every early return
leaves the store untouched (no write precedes the validations). -/
def submit_test (db : DB) (sub : CandidateCreate) : SubmitResult × DB :=
  if pyBlank sub.name then
    (.badRequest "'name' cannot be empty", db)
  else
    match db.tests.find? (fun t => t.test_code == sub.testId) with
    | none => (.notFound "Invalid test code", db)
    | some test =>
        -- `total_questions = len(questions_data)` is inlined below
        if sub.answers.length != test.questions_data.length then
          (.badRequest ("You must answer all " ++ toString test.questions_data.length ++
            " questions. You answered " ++ toString sub.answers.length), db)
        else
          match firstUnanswered sub.answers 1 with
          | some idx =>
              (.badRequest ("Question " ++ toString idx ++
                " has no answer selected. All questions must be answered."), db)
          | none => acceptSubmission db sub test

/-- candidates.py format_time (lines 13-18): seconds under 60 render as
`"Ns"`, otherwise zero-padded `"MM:SS"` via Python floor division. -/
def pad2 (n : Int) : String :=
  if 0 ≤ n ∧ n < 10 then "0" ++ toString n else toString n

/-- candidates.py `format_time`. -/
def format_time (seconds : Int) : String :=
  if seconds < 60 then toString seconds ++ "s"
  else pad2 (Int.fdiv seconds 60) ++ ":" ++ pad2 (Int.fmod seconds 60)

/-- candidates.py lines 196-198: `score_percentage = (correct / total * 100)
if total > 0 else 0` in the single-result endpoint. -/
def singleScorePercentage (correct : Int) (total : Nat) : ℚ :=
  if total > 0 then (correct : ℚ) / (total : ℚ) * 100 else 0

/-- candidates.py lines 279-282: `score_percentage = int((correct / total *
100)) if total > 0 else 0` in the aggregate listing endpoint. -/
def aggScorePercentage (correct : Int) (total : Nat) : Int :=
  if total > 0 then pyInt ((correct : ℚ) / (total : ℚ) * 100) else 0

/-- schemas.py `QuestionBreakdown`: one row of the per-question result
breakdown. -/
structure QuestionBreakdown where
  question_id : String
  question_text : String
  selected_option : String
  correct_option : String
  is_correct : Bool
  options : OptionsDict
  difficulty : String
  category_name : String
  subcategory_name : Option String
deriving DecidableEq

/-- schemas.py `CandidateDetailResponse`. -/
structure CandidateDetailResponse where
  id : Int
  name : String
  email : String
  test_id : Int
  test_code : String
  time_taken : Int
  time_taken_formatted : String
  total_questions : Nat
  correct_answers : Int
  score : ℚ
  created_at : Nat
deriving DecidableEq

/-- Outcome of `GET /candidates/result/{candidate_id}`
(candidates.py get_candidate_result): a 404, an uncaught Python
`AttributeError` (HTTP 500), or the 200 result payload. -/
inductive ResultOutcome where
  | notFound (error : String)
  | attrError (error : String)
  | ok (candidate : CandidateDetailResponse) (responses : List QuestionBreakdown)
deriving DecidableEq

/-- Models the Python attribute access `candidate.test_id` at
candidates.py line 188.  The `Candidate` model (models.py lines 92-100)
declares no `test_id` column, so the access raises `AttributeError` at
runtime; the embedding returns `none`. -/
def Candidate.testIdAttr (_ : Candidate) : Option Int := none

/-- candidates.py get_candidate_result: resolve the candidate (404), its
first response (404), then — as written at line 188 — read
`candidate.test_id`, which the model does not define (AttributeError).  The
remainder (snapshot re-join, percentage, breakdown) is embedded as written,
though it is unreachable behind that access. -/
def get_candidate_result (db : DB) (candidate_id : Int) : ResultOutcome :=
  match db.candidates.find? (fun c => c.id == candidate_id) with
  | none => .notFound "Candidate not found"
  | some candidate =>
      match db.responses.find? (fun r => r.candidate_id == candidate_id) with
      | none => .notFound "Response data not found for this candidate"
      | some response =>
          match candidate.testIdAttr with
          | none => .attrError "'Candidate' object has no attribute 'test_id'"
          | some ctid =>
              match db.tests.find? (fun t => t.id == ctid) with
              | none =>
                  -- line 189: `test.questions_data` with `test is None`
                  .attrError "'NoneType' object has no attribute 'questions_data'"
              | some test =>
                  let questions_data := test.questions_data
                  let answers := response.answers
                  let total_questions := answers.length
                  let correct_answers := response.score
                  let score_percentage :=
                    singleScorePercentage correct_answers total_questions
                  let question_breakdown := answers.filterMap (fun a =>
                    match snapshotLookup questions_data a.questionId with
                    | none => none
                    | some q => some
                        { question_id := a.questionId
                          question_text := q.question
                          selected_option := a.selected
                          correct_option := a.correct
                          is_correct := a.isCorrect
                          options := q.options
                          difficulty := q.difficulty
                          category_name := q.category.name
                          subcategory_name := q.category.subcategory })
                  .ok
                    { id := candidate.id
                      name := candidate.name
                      email := candidate.email
                      test_id := response.test_id
                      test_code := test.test_code
                      time_taken := response.time_taken
                      time_taken_formatted := format_time response.time_taken
                      total_questions := total_questions
                      correct_answers := correct_answers
                      score := round2 score_percentage
                      created_at := response.answered_at }
                    question_breakdown

/-- schemas.py `CandidateListItem`: one row of the aggregate listing. -/
structure CandidateListItem where
  id : Int
  name : String
  email : String
  test_code : String
  score : String
  score_percentage : Int
  time_taken_formatted : String
  created_at : Nat
deriving DecidableEq

/-- Outcome of `GET /candidates/results` (candidates.py get_all_results). -/
inductive ListOutcome where
  | notFound (error : String)
  | attrError (error : String)
  | ok (items : List CandidateListItem)
deriving DecidableEq

/-- Loop body of get_all_results (candidates.py lines 270-293): resolve the
row's candidate and test and build one listing item; `none` when either
lookup returns `None` (the subsequent `.name`/`.test_code` access would
raise `AttributeError`). -/
def listRow (db : DB) (response : Response) : Option CandidateListItem :=
  match db.candidates.find? (fun c => c.id == response.candidate_id),
        db.tests.find? (fun t => t.id == response.test_id) with
  | some candidate, some test =>
      let total_questions := response.answers.length
      let correct_answers := response.score
      some
        { id := response.id
          name := candidate.name
          email := candidate.email
          test_code := test.test_code
          score := toString correct_answers ++ "/" ++ toString total_questions
          score_percentage := aggScorePercentage correct_answers total_questions
          time_taken_formatted := format_time response.time_taken
          created_at := response.answered_at }
  | _, _ => none

/-- The result-building loop of get_all_results: first failing row aborts the
request with the uncaught `AttributeError`. -/
def buildItems (db : DB) : List Response → ListOutcome
  | [] => .ok []
  | r :: rest =>
      match listRow db r with
      | none => .attrError "'NoneType' object has no attribute"
      | some item =>
          match buildItems db rest with
          | .ok items => .ok (item :: items)
          | e => e

/-- Insert a response into a list kept sorted by `answered_at` descending. -/
def insertDesc (r : Response) : List Response → List Response
  | [] => [r]
  | x :: xs =>
      if x.answered_at ≤ r.answered_at then r :: x :: xs else x :: insertDesc r xs

/-- `ORDER BY answered_at DESC` (candidates.py line 266), as a sort on the
row list.  SQL leaves the relative order of equal keys unspecified; this
insertion sort places later-inserted rows of equal timestamp first. -/
def sortByAnsweredDesc : List Response → List Response
  | [] => []
  | r :: rest => insertDesc r (sortByAnsweredDesc rest)

/-- candidates.py get_all_results (`GET /candidates/results`): optional
test_code filter (404 when unknown), rows ordered most-recent-first by
`answered_at`. -/
def get_all_results (db : DB) (test_code : Option String) : ListOutcome :=
  match test_code with
  | some tc =>
      match db.tests.find? (fun t => t.test_code == tc) with
      | none => .notFound "Test not found"
      | some test =>
          buildItems db
            (sortByAnsweredDesc (db.responses.filter (fun r => r.test_id == test.id)))
  | none => buildItems db (sortByAnsweredDesc db.responses)

/-- schemas.py `QuestionUpdate`: the PUT body, every field optional. -/
structure QuestionUpdate where
  category_id : Option Int
  sub_category_id : Option Int
  question_text : Option String
  options : Option OptionsDict
  correct_option : Option String
  difficulty : Option String
deriving DecidableEq

/-- Outcome of the question-bank write endpoints (questions.py). -/
inductive QuestionOutcome where
  | notFound (error : String)
  | badRequest (error : String)
  | okQuestion (q : Question)
  | okMessage (message : String)
deriving DecidableEq

/-- questions.py lines 273-283: validate/apply `question_text`. -/
def stepText (u : QuestionUpdate) (q : Question) :
    Except QuestionOutcome Question :=
  match u.question_text with
  | none => .ok q
  | some qt =>
      if pyBlank qt then .error (.badRequest "'question_text' cannot be empty")
      else .ok { q with question_text := qt }

/-- questions.py lines 285-316: validate/apply `options` (non-empty, no empty
option text, and — when `correct_option` is not also being updated — the
current correct option must survive into the new keys). -/
def stepOptions (u : QuestionUpdate) (q : Question) :
    Except QuestionOutcome Question :=
  match u.options with
  | none => .ok q
  | some opts =>
      if opts.length == 0 then .error (.badRequest "'options' cannot be empty")
      else
        match opts.find? (fun kv => pyBlank kv.2) with
        | some kv => .error (.badRequest ("Option '" ++ kv.1 ++ "' cannot be empty"))
        | none =>
            if u.correct_option == none &&
               (opts.find? (fun kv => kv.1 == q.correct_option)).isNone then
              .error (.badRequest ("Current correct_option '" ++ q.correct_option ++
                "' must exist in new options"))
            else .ok { q with options := opts }

/-- questions.py lines 318-350: validate/apply `correct_option` (non-blank,
single character, member of the — possibly just replaced — option keys). -/
def stepCorrect (u : QuestionUpdate) (q : Question) :
    Except QuestionOutcome Question :=
  match u.correct_option with
  | none => .ok q
  | some co =>
      if pyBlank co then .error (.badRequest "'correct_option' cannot be empty")
      else if co.length != 1 then
        .error (.badRequest "correct_option must be a single character")
      else if (q.options.find? (fun kv => kv.1 == co)).isNone then
        .error (.badRequest "correct_option must be one of the option keys")
      else .ok { q with correct_option := co }

/-- questions.py lines 352-362: validate/apply `category_id` (404 when the
category does not exist). -/
def stepCategory (db : DB) (u : QuestionUpdate) (q : Question) :
    Except QuestionOutcome Question :=
  match u.category_id with
  | none => .ok q
  | some cid =>
      match db.categories.find? (fun c => c.id == cid) with
      | none => .error (.notFound "Category not found")
      | some _ => .ok { q with category_id := cid }

/-- questions.py lines 367-369: apply `difficulty` unconditionally. -/
def stepDifficulty (u : QuestionUpdate) (q : Question) :
    Except QuestionOutcome Question :=
  match u.difficulty with
  | none => .ok q
  | some d => .ok { q with difficulty := d }

/-- The sequence of field steps of update_question, run in source order,
stopping at the first early return. -/
def runUpdateSteps (db : DB) (u : QuestionUpdate) (q0 : Question) :
    Except QuestionOutcome Question :=
  match stepText u q0 with
  | .error e => .error e
  | .ok q1 =>
      match stepOptions u q1 with
      | .error e => .error e
      | .ok q2 =>
          match stepCorrect u q2 with
          | .error e => .error e
          | .ok q3 =>
              match stepCategory db u q3 with
              | .error e => .error e
              | .ok q4 => stepDifficulty u q4

/-- questions.py update_question (`PUT /questions/{id}`): resolve the row
(404), run the field steps in source order, commit the updated row on
success.  Every early return replies before `db.commit()`, so the session's
pending in-memory mutations are discarded and the store is unchanged. -/
def update_question (db : DB) (question_id : Int) (u : QuestionUpdate) :
    QuestionOutcome × DB :=
  match db.questions.find? (fun x => x.id == question_id) with
  | none => (.notFound "Question not found", db)
  | some q0 =>
      match runUpdateSteps db u q0 with
      | .error e => (e, db)
      | .ok qf =>
          (.okQuestion qf,
           { db with questions :=
               db.questions.map (fun x => if x.id == question_id then qf else x) })

/-- questions.py delete_question (`DELETE /questions/{id}`): resolve the row
(404) and delete it. -/
def delete_question (db : DB) (question_id : Int) : QuestionOutcome × DB :=
  match db.questions.find? (fun x => x.id == question_id) with
  | none => (.notFound "Question not found", db)
  | some _ =>
      (.okMessage "Question deleted successfully",
       { db with questions := db.questions.filter (fun x => !(x.id == question_id)) })

/-- schemas.py `TestCreate` (lines 164-165): the declared body of
`POST /tests/create` — a single field `questions`. -/
structure TestCreate where
  questions : List TestQuestionData
deriving DecidableEq

/-- Models the Python attribute access `test_data.selected_question_ids` at
test.py line 93.  `TestCreate` (schemas.py lines 164-165) defines only
`questions`, so this access raises `AttributeError` on a pydantic model;
the embedding returns `none`. -/
def TestCreate.selectedQuestionIdsAttr (_ : TestCreate) : Option (List Int) :=
  none

/-- Outcome of `POST /tests/create` (test.py create_test). -/
inductive CreateOutcome where
  | httpError (status : Nat) (detail : String)
  | attrError (error : String)
  | ok (test_id : Int) (test_code : String) (question_count : Nat)
deriving DecidableEq

/-- test.py create_test (`POST /tests/create`), as written: its first
statement (line 93) evaluates `test_data.selected_question_ids`, an
attribute the declared `TestCreate` schema does not define, so every request
dies with an uncaught `AttributeError` (HTTP 500) before any validation or
write.  (The remainder of the handler also reads `category_id`,
`sub_category_id` and `difficulty` — likewise undefined on `TestCreate` —
and finally constructs `models.Test` with keyword arguments the model does
not declare; control never reaches it.) -/
def create_test (db : DB) (test_data : TestCreate) : CreateOutcome × DB :=
  match test_data.selectedQuestionIdsAttr with
  | none =>
      (.attrError "'TestCreate' object has no attribute 'selected_question_ids'",
       db)
  | some _ =>
      (.attrError "'TestCreate' object has no attribute 'category_id'", db)

/-- One draw of `uuid.uuid4().hex`: 32 hexadecimal digits. -/
def UuidHex := { l : List (Fin 16) // l.length = 32 }

/-- The character Python renders for one hex digit of `uuid4().hex`
(lowercase). -/
def hexDigitChar (n : Fin 16) : Char :=
  if n.val < 10 then Char.ofNat (48 + n.val) else Char.ofNat (87 + n.val)

/-- test.py generate_test_code (lines 13-15):
`f"TEST-{uuid.uuid4().hex[:8].upper()}"`, as a function of the random draw. -/
def generate_test_code (u : UuidHex) : String :=
  "TEST-" ++ String.mk (((u.val.take 8).map hexDigitChar).map Char.toUpper)

/-- The collision-retry loop of test.py create_test (lines 166-171): generate
a code, re-generate while some stored test already carries it.  The source
loop is unbounded; the embedding takes fuel, `none` meaning the loop did not
finish within `fuel` iterations.  `uuids i` is the i-th random draw. -/
def uniqueTestCode (tests : List Test) (uuids : Nat → UuidHex) :
    Nat → Nat → Option String
  | 0, _ => none
  | fuel + 1, i =>
      if tests.any (fun t => t.test_code == generate_test_code (uuids i)) then
        uniqueTestCode tests uuids fuel (i + 1)
      else some (generate_test_code (uuids i))

/-- The uppercase-hexadecimal alphabet. -/
def upperHexChars : List Char := "0123456789ABCDEF".toList

/-- An empty store (no rows, fresh counters, clock at 0). -/
def emptyDB : DB :=
  { categories := [], questions := [], tests := [], candidates := []
    responses := [], nextQuestionId := 1, nextCandidateId := 1
    nextResponseId := 1, now := 0 }

/-- Fixture: a frozen snapshot question with id 1 and answer "A". -/
def fxQ1 : TestQuestionData :=
  { question_id := 1, answer := "A", options := [("A", "alpha"), ("B", "beta")]
    category := { id := 1, name := "General", subcategory := none }
    question := "Pick A", difficulty := "Easy", user_id := 7 }

/-- Fixture: a frozen snapshot question with id 2 and answer "C". -/
def fxQ2 : TestQuestionData :=
  { question_id := 2, answer := "C"
    options := [("A", "a"), ("B", "b"), ("C", "c"), ("D", "d")]
    category := { id := 1, name := "General", subcategory := some "Sub" }
    question := "Pick C", difficulty := "Medium", user_id := 7 }

/-- Fixture: a one-question test. -/
def fxTest1 : Test :=
  { id := 1, test_code := "TEST-00000001", questions_data := [fxQ1], user_id := 7 }

/-- Fixture: a two-question test. -/
def fxTest2 : Test :=
  { id := 2, test_code := "TEST-00000002", questions_data := [fxQ1, fxQ2]
    user_id := 7 }

/-- Fixture store holding the two tests and nothing else. -/
def fxDB : DB := { emptyDB with tests := [fxTest1, fxTest2] }

/-- Fixture submission against `fxTest1` whose single answer names a
question id ("2") absent from that test's snapshot. -/
def fxSubUnknownId : CandidateCreate :=
  { testId := "TEST-00000001", name := "Al", email := "al@example.com"
    timeTaken := 30, answers := [{ questionId := "2", selected := "A" }] }

/-- Fixture submission with a blank name against a test code no stored test
carries. -/
def fxSubBlankName : CandidateCreate :=
  { testId := "TEST-DEADBEEF", name := "   ", email := "x@example.com"
    timeTaken := 0, answers := [] }

/-- Fixture submission against `fxTest2`: lowercase "a" for question 1
(frozen answer "A"), "d" for question 2 (frozen answer "C"). -/
def fxSubScenario : CandidateCreate :=
  { testId := "TEST-00000002", name := "Bea", email := "bea@example.com"
    timeTaken := 75
    answers := [{ questionId := "1", selected := "a" },
                { questionId := "2", selected := "d" }] }

/-- Fixture response: three stored answers, score 1. -/
def fxResp9 : Response :=
  { id := 1, candidate_id := 1, test_id := 1
    answers := [{ questionId := "1", selected := "A"
                  correct := "A", isCorrect := true },
                { questionId := "2", selected := "B"
                  correct := "C", isCorrect := false },
                { questionId := "3", selected := "D"
                  correct := "C", isCorrect := false }]
    score := 1, time_taken := 90, answered_at := 5 }

/-- Fixture store with one candidate (id 1) and one response of three stored
answers scoring 1, for the percentage computations. -/
def fxDB9 : DB :=
  { emptyDB with
    tests := [fxTest1]
    candidates := [{ id := 1, name := "Cy", email := "cy@example.com" }]
    responses := [fxResp9]
    nextCandidateId := 2, nextResponseId := 2 }

/-- Fixture submission with a non-blank name against a test code no stored
test carries. -/
def fxSubNoTest : CandidateCreate :=
  { testId := "TEST-DEADBEEF", name := "Zed", email := "z@example.com"
    timeTaken := 0, answers := [] }

/-- Fixture first retake submission (email ann@example.com, name "Ann"). -/
def fxSubR1 : CandidateCreate :=
  { testId := "TEST-00000001", name := "Ann", email := "ann@example.com"
    timeTaken := 10, answers := [{ questionId := "1", selected := "A" }] }

/-- Fixture second retake submission under the same email but a different
name ("Anna"). -/
def fxSubR2 : CandidateCreate :=
  { testId := "TEST-00000001", name := "Anna", email := "ann@example.com"
    timeTaken := 12, answers := [{ questionId := "1", selected := "B" }] }

/-- Fixture all-zero uuid draw. -/
def fxUuidZero : UuidHex := ⟨List.replicate 32 0, by decide⟩

/-- Fixture uuid draw starting with digit 1. -/
def fxUuidOne : UuidHex := ⟨1 :: List.replicate 31 0, by decide⟩

/-- Fixture random stream: the first draw is all zeroes, every later draw
starts with 1. -/
def fxStream : Nat → UuidHex := fun n => if n = 0 then fxUuidZero else fxUuidOne

/-- Fixture stored test whose code collides with the all-zero draw. -/
def fxTestZero : Test :=
  { id := 3, test_code := "TEST-00000000", questions_data := [], user_id := 7 }

/-- Sequential replay of submissions: each request runs against the store
left by the previous one. -/
def runSubmissions (db : DB) : List CandidateCreate → DB
  | [] => db
  | s :: rest => runSubmissions (submit_test db s).2 rest

/-- Every submission of the list is accepted (200) when replayed in order. -/
def allAccepted : DB → List CandidateCreate → Prop
  | _, [] => True
  | db, s :: rest =>
      (submit_test db s).1.isOk = true ∧ allAccepted (submit_test db s).2 rest

theorem gradeItem_lookup_none {qd : List TestQuestionData} {a : AnswerItem}
    (h : snapshotLookup qd a.questionId = none) : gradeItem qd a = none := by
  simp [gradeItem, h]

theorem answerCorrect_lookup_none {qd : List TestQuestionData} {a : AnswerItem}
    (h : snapshotLookup qd a.questionId = none) : answerCorrect qd a = false := by
  simp [answerCorrect, h]

theorem gradeItem_lookup_some {qd : List TestQuestionData} {a : AnswerItem}
    {q : TestQuestionData} (h : snapshotLookup qd a.questionId = some q) :
    gradeItem qd a = some
      { questionId := a.questionId
        selected := pyUpper (pyStrip a.selected)
        correct := pyUpper q.answer
        isCorrect := pyUpper (pyStrip a.selected) == pyUpper q.answer } := by
  simp [gradeItem, h]

theorem answerCorrect_lookup_some {qd : List TestQuestionData} {a : AnswerItem}
    {q : TestQuestionData} (h : snapshotLookup qd a.questionId = some q) :
    answerCorrect qd a = (pyUpper (pyStrip a.selected) == pyUpper q.answer) := by
  simp [answerCorrect, h]

/-- The grading loop, run from an arbitrary accumulator, appends exactly the
records of the matched answers and adds exactly the number of correct
answers: the loop of candidates.py computes the filter/count specification. -/
theorem gradeLoop_eq (qd : List TestQuestionData) :
    ∀ (ans : List AnswerItem) (vs : List AnswerRecord) (c : Int),
      gradeLoop qd ans (vs, c) =
        (vs ++ ans.filterMap (gradeItem qd),
         c + (ans.countP (answerCorrect qd) : Int)) := by
  intro ans
  induction ans with
  | nil => intro vs c; simp [gradeLoop]
  | cons a rest ih =>
      intro vs c
      cases h : snapshotLookup qd a.questionId with
      | none =>
          simp only [gradeLoop, gradeItem_lookup_none h]
          rw [ih]
          simp [List.filterMap_cons, gradeItem_lookup_none h,
            List.countP_cons, answerCorrect_lookup_none h]
      | some q =>
          simp only [gradeLoop, gradeItem_lookup_some h]
          rw [ih]
          simp only [List.filterMap_cons, gradeItem_lookup_some h,
            List.countP_cons, answerCorrect_lookup_some h, Prod.mk.injEq]
          refine ⟨by simp, ?_⟩
          by_cases hc : pyUpper (pyStrip a.selected) == pyUpper q.answer
          · simp [hc]
            omega
          · simp [hc]

/-- The number of records the grading loop keeps equals the number of
submitted answers whose id occurs in the snapshot. -/
theorem filterMap_gradeItem_length (qd : List TestQuestionData) :
    ∀ ans : List AnswerItem,
      (ans.filterMap (gradeItem qd)).length = ans.countP (answerMatches qd) := by
  intro ans
  induction ans with
  | nil => simp
  | cons a rest ih =>
      cases h : snapshotLookup qd a.questionId with
      | none =>
          simp [List.filterMap_cons, gradeItem_lookup_none h,
            List.countP_cons, answerMatches, h, ih]
      | some q =>
          simp [List.filterMap_cons, gradeItem_lookup_some h,
            List.countP_cons, answerMatches, h, ih]

/-- The success path always reports the 200 payload. -/
theorem acceptSubmission_isOk (db : DB) (sub : CandidateCreate) (test : Test) :
    (acceptSubmission db sub test).1.isOk = true := by
  unfold acceptSubmission
  cases h : db.candidates.find? (fun c => c.email == sub.email) <;>
    simp [h, SubmitResult.isOk]

/-- The success path appends exactly one `Response`, holding the grading
loop's validated list and correct count. -/
theorem acceptSubmission_responses (db : DB) (sub : CandidateCreate) (test : Test) :
    ∃ r : Response,
      (acceptSubmission db sub test).2.responses = db.responses ++ [r] ∧
      r.answers = (gradeLoop test.questions_data sub.answers ([], 0)).1 ∧
      r.score = (gradeLoop test.questions_data sub.answers ([], 0)).2 ∧
      r.test_id = test.id ∧ r.time_taken = sub.timeTaken := by
  unfold acceptSubmission
  cases h : db.candidates.find? (fun c => c.email == sub.email) with
  | none =>
      refine ⟨{ id := db.nextResponseId, candidate_id := db.nextCandidateId
                test_id := test.id
                answers := (gradeLoop test.questions_data sub.answers ([], 0)).1
                score := (gradeLoop test.questions_data sub.answers ([], 0)).2
                time_taken := sub.timeTaken, answered_at := db.now },
        ?_, rfl, rfl, rfl, rfl⟩
      simp
  | some c =>
      refine ⟨{ id := db.nextResponseId, candidate_id := c.id
                test_id := test.id
                answers := (gradeLoop test.questions_data sub.answers ([], 0)).1
                score := (gradeLoop test.questions_data sub.answers ([], 0)).2
                time_taken := sub.timeTaken, answered_at := db.now },
        ?_, rfl, rfl, rfl, rfl⟩
      simp

/-- The success path either reuses the candidate found by email (store rows
untouched) or appends exactly the one new candidate with the trimmed
submitted name. -/
theorem acceptSubmission_candidates (db : DB) (sub : CandidateCreate) (test : Test) :
    (db.candidates.find? (fun c => c.email == sub.email) = none ∧
      (acceptSubmission db sub test).2.candidates = db.candidates ++
        [{ id := db.nextCandidateId, name := pyStrip sub.name, email := sub.email }]) ∨
    (∃ c, db.candidates.find? (fun c => c.email == sub.email) = some c ∧
      (acceptSubmission db sub test).2.candidates = db.candidates) := by
  unfold acceptSubmission
  cases h : db.candidates.find? (fun c => c.email == sub.email) with
  | none => exact Or.inl ⟨rfl, by simp [h]⟩
  | some c => exact Or.inr ⟨c, rfl, by simp [h]⟩

/-- A successful submit means every validation passed and the request ran the
success path against the test resolved by `test_code`. -/
theorem submit_test_ok_shape (db : DB) (sub : CandidateCreate)
    (h : (submit_test db sub).1.isOk = true) :
    ∃ test, db.tests.find? (fun t => t.test_code == sub.testId) = some test ∧
      pyBlank sub.name = false ∧
      sub.answers.length = test.questions_data.length ∧
      firstUnanswered sub.answers 1 = none ∧
      submit_test db sub = acceptSubmission db sub test := by
  unfold submit_test at h ⊢
  split at h
  next h1 => simp [SubmitResult.isOk] at h
  next h1 =>
    split at h
    next hfind => simp [SubmitResult.isOk] at h
    next test hfind =>
      split at h
      next hlen => simp [SubmitResult.isOk] at h
      next hlen =>
        split at h
        next idx hfu => simp [SubmitResult.isOk] at h
        next hfu =>
          refine ⟨test, hfind, by simpa using h1, by simpa using hlen, hfu, ?_⟩
          simp [h1, hfind, hlen, hfu]

/-- A rejected submit leaves the store untouched (all four validations run
before any write). -/
theorem submit_test_rejected_state (db : DB) (sub : CandidateCreate)
    (h : (submit_test db sub).1.isOk = false) :
    (submit_test db sub).2 = db := by
  unfold submit_test at h ⊢
  split at h
  next h1 => simp [h1]
  next h1 =>
    split at h
    next hfind => simp [h1, hfind]
    next test hfind =>
      split at h
      next hlen => simp [h1, hfind, hlen]
      next hlen =>
        split at h
        next idx hfu => simp [h1, hfind, hlen, hfu]
        next hfu =>
          rw [acceptSubmission_isOk] at h
          exact absurd h (by simp)

/-- The success path of submit is insensitive to the live question bank: it
reads and writes every table except `questions` identically. -/
theorem acceptSubmission_questions (db : DB) (qs : List Question)
    (sub : CandidateCreate) (test : Test) :
    acceptSubmission { db with questions := qs } sub test =
      ((acceptSubmission db sub test).1,
       { (acceptSubmission db sub test).2 with questions := qs }) := by
  unfold acceptSubmission
  cases h : db.candidates.find? (fun c => c.email == sub.email) <;> simp [h]

/-- submit_test never reads the live `questions` table: the outcome and the
rows it writes are the same whatever that table holds. -/
theorem submit_test_questions (db : DB) (qs : List Question)
    (sub : CandidateCreate) :
    submit_test { db with questions := qs } sub =
      ((submit_test db sub).1,
       { (submit_test db sub).2 with questions := qs }) := by
  unfold submit_test
  split
  · rfl
  next hname =>
    cases hfind : db.tests.find? (fun t => t.test_code == sub.testId) with
    | none => simp [hfind]
    | some test =>
        simp only [hfind]
        split
        next hlen => rfl
        next hlen =>
          split
          next idx hfu => rfl
          next hfu => exact acceptSubmission_questions db qs sub test

/-- update_question touches at most the `questions` table. -/
theorem update_question_only_questions (db : DB) (qid : Int) (u : QuestionUpdate) :
    ∃ qs, (update_question db qid u).2 = { db with questions := qs } := by
  unfold update_question
  split
  · exact ⟨db.questions, rfl⟩
  · split
    · exact ⟨db.questions, rfl⟩
    · exact ⟨_, rfl⟩

/-- delete_question touches at most the `questions` table. -/
theorem delete_question_only_questions (db : DB) (qid : Int) :
    ∃ qs, (delete_question db qid).2 = { db with questions := qs } := by
  unfold delete_question
  cases hfind : db.questions.find? (fun x => x.id == qid) with
  | none => exact ⟨db.questions, rfl⟩
  | some q => exact ⟨_, rfl⟩

/-- C1: updating or deleting a question in the live bank after a test's
creation leaves every stored test's `questions_data` unchanged, and a later
submission against any test grades identically (same outcome, same stored
response rows) on the mutated store. -/
theorem C1_snapshot_immutability (db : DB) (qid : Int) (u : QuestionUpdate)
    (sub : CandidateCreate) :
    ((update_question db qid u).2.tests = db.tests ∧
     (delete_question db qid).2.tests = db.tests) ∧
    ((submit_test (update_question db qid u).2 sub).1 = (submit_test db sub).1 ∧
     (submit_test (update_question db qid u).2 sub).2.responses =
       (submit_test db sub).2.responses) ∧
    ((submit_test (delete_question db qid).2 sub).1 = (submit_test db sub).1 ∧
     (submit_test (delete_question db qid).2 sub).2.responses =
       (submit_test db sub).2.responses) := by
  obtain ⟨qs1, h1⟩ := update_question_only_questions db qid u
  obtain ⟨qs2, h2⟩ := delete_question_only_questions db qid
  rw [h1, h2, submit_test_questions db qs1 sub, submit_test_questions db qs2 sub]
  exact ⟨⟨rfl, rfl⟩, ⟨rfl, rfl⟩, rfl, rfl⟩

/-- C4 (code bug): `POST /tests/create` as written evaluates
`test_data.selected_question_ids`, an attribute its own `TestCreate` schema
does not define, so every request fails with an uncaught AttributeError
(HTTP 500) and no test is ever created; none of the claimed per-question
validation is reachable. -/
theorem C4_create_test_attribute_bug (db : DB) (td : TestCreate) :
    create_test db td =
      (.attrError "'TestCreate' object has no attribute 'selected_question_ids'",
       db) := rfl

/-- C3 (code bug): whenever the candidate exists and has a response — the
exact situation in which the claim promises the full scored breakdown — the
handler dereferences `candidate.test_id`, an attribute the Candidate model
does not declare, and dies with an uncaught AttributeError instead of
returning the breakdown. -/
theorem C3_result_breakdown_bug (db : DB) (cid : Int) (c : Candidate)
    (r : Response)
    (hc : db.candidates.find? (fun x => x.id == cid) = some c)
    (hr : db.responses.find? (fun x => x.candidate_id == cid) = some r) :
    get_candidate_result db cid =
      .attrError "'Candidate' object has no attribute 'test_id'" := by
  unfold get_candidate_result
  rw [hc, hr]
  rfl

/-- C3 witness: the bug fires on the concrete store `fxDB9` (candidate 1
exists and has a response). -/
theorem C3_result_breakdown_bug_witness :
    get_candidate_result fxDB9 1 =
      .attrError "'Candidate' object has no attribute 'test_id'" :=
  C3_result_breakdown_bug fxDB9 1
    { id := 1, name := "Cy", email := "cy@example.com" } fxResp9 rfl rfl

/-- C5 counterexample: a submission whose testId matches no stored test and
whose name is whitespace-only is answered with BadRequest (empty name), not
NotFound — the claim's required order (test resolution before the name
check) does not hold in the code. -/
theorem C5_counterexample :
    (submit_test fxDB fxSubBlankName).1 = .badRequest "'name' cannot be empty" ∧
    (submit_test fxDB fxSubBlankName).1 ≠ .notFound "Invalid test code" ∧
    fxDB.tests.find? (fun t => t.test_code == fxSubBlankName.testId) = none := by
  exact ⟨rfl, by decide, rfl⟩

/-- C5 amended: the grader checks the empty-name rule FIRST; a
blank-name submission yields BadRequest regardless of the test code, and the
test is resolved only for non-blank names, yielding NotFound when no test
carries the code. -/
theorem C5_amended_name_check_first (db : DB) (sub : CandidateCreate) :
    (pyBlank sub.name = true →
      (submit_test db sub).1 = .badRequest "'name' cannot be empty") ∧
    (pyBlank sub.name = false →
      db.tests.find? (fun t => t.test_code == sub.testId) = none →
      (submit_test db sub).1 = .notFound "Invalid test code") := by
  constructor
  · intro h
    unfold submit_test
    rw [if_pos h]
  · intro h hfind
    unfold submit_test
    rw [if_neg (by simp [h]), hfind]

/-- C5 witness: both branches of the amended claim at concrete inputs. -/
theorem C5_amended_witness :
    (submit_test fxDB fxSubBlankName).1 = .badRequest "'name' cannot be empty" ∧
    (submit_test fxDB fxSubNoTest).1 = .notFound "Invalid test code" :=
  ⟨(C5_amended_name_check_first fxDB fxSubBlankName).1 rfl,
   (C5_amended_name_check_first fxDB fxSubNoTest).2 rfl rfl⟩

/-- C2 counterexample: the store `fxDB` accepts the submission
`fxSubUnknownId` (its one answer names a question id absent from the
snapshot), yet the created Response stores an empty answers array while the
test's frozen `questions_data` has one question — `len(answers)` differs
from `len(test.questions_data)` at creation time. -/
theorem C2_counterexample :
    (submit_test fxDB fxSubUnknownId).1.isOk = true ∧
    ((submit_test fxDB fxSubUnknownId).2.responses.map
      (fun r => r.answers.length)) = [0] ∧
    fxDB.tests.find? (fun t => t.test_code == fxSubUnknownId.testId)
      = some fxTest1 ∧
    fxTest1.questions_data.length = 1 := ⟨rfl, rfl, rfl, rfl⟩

/-- C2 amended: the Response created by an accepted submission stores one
answer per SUBMITTED answer whose questionId occurs in the frozen snapshot
(unmatched ids are dropped); the stored length equals the frozen question
count exactly when every submitted id matches. -/
theorem C2_amended_stored_answers (db : DB) (sub : CandidateCreate)
    (test : Test)
    (hfind : db.tests.find? (fun t => t.test_code == sub.testId) = some test)
    (hok : (submit_test db sub).1.isOk = true) :
    ∃ r : Response,
      (submit_test db sub).2.responses = db.responses ++ [r] ∧
      r.answers.length = sub.answers.countP (answerMatches test.questions_data) ∧
      ((∀ a ∈ sub.answers, answerMatches test.questions_data a = true) →
        r.answers.length = test.questions_data.length) := by
  obtain ⟨test', hfind', hname, hlen, hfu, heq⟩ := submit_test_ok_shape db sub hok
  rw [hfind] at hfind'
  injection hfind' with hteq
  subst hteq
  obtain ⟨r, hresp, hans, hscore, _, _⟩ := acceptSubmission_responses db sub test
  refine ⟨r, by rw [heq]; exact hresp, ?_, ?_⟩
  · rw [hans, gradeLoop_eq]
    simp [filterMap_gradeItem_length]
  · intro hall
    rw [hans, gradeLoop_eq]
    simp only [List.nil_append, List.length_append]
    rw [filterMap_gradeItem_length, List.countP_eq_length.mpr hall]
    simpa using hlen

/-- C2 amended witness: on `fxDB`/`fxSubUnknownId` the stored length equals
the matched-answer count (here 0). -/
theorem C2_amended_witness :
    ∃ r : Response,
      (submit_test fxDB fxSubUnknownId).2.responses = fxDB.responses ++ [r] ∧
      r.answers.length =
        fxSubUnknownId.answers.countP (answerMatches fxTest1.questions_data) ∧
      ((∀ a ∈ fxSubUnknownId.answers,
          answerMatches fxTest1.questions_data a = true) →
        r.answers.length = fxTest1.questions_data.length) :=
  C2_amended_stored_answers fxDB fxSubUnknownId fxTest1 rfl rfl

/-- C6: for every accepted submission, the created Response's score equals
the count of submitted answers whose questionId matches the frozen snapshot
and whose stripped, uppercased selection equals the uppercased frozen answer
(`answerCorrect`); its stored answer list covers exactly the matched
submitted answers, so unknown ids count toward neither score nor total. -/
theorem C6_scoring_correct (db : DB) (sub : CandidateCreate) (test : Test)
    (hfind : db.tests.find? (fun t => t.test_code == sub.testId) = some test)
    (hok : (submit_test db sub).1.isOk = true) :
    ∃ r : Response,
      (submit_test db sub).2.responses = db.responses ++ [r] ∧
      r.score = (sub.answers.countP (answerCorrect test.questions_data) : Int) ∧
      r.answers.length = sub.answers.countP (answerMatches test.questions_data) := by
  obtain ⟨test', hfind', hname, hlen, hfu, heq⟩ := submit_test_ok_shape db sub hok
  rw [hfind] at hfind'
  injection hfind' with hteq
  subst hteq
  obtain ⟨r, hresp, hans, hscore, _, _⟩ := acceptSubmission_responses db sub test
  refine ⟨r, by rw [heq]; exact hresp, ?_, ?_⟩
  · rw [hscore, gradeLoop_eq]
    simp
  · rw [hans, gradeLoop_eq]
    simp [filterMap_gradeItem_length]

/-- C6 witness: the spec's own scenario — two frozen questions with answers
"A" and "C"; the candidate selects lowercase "a" and "d"; the stored score
is 1 (case-insensitive match on question 1) over 2 stored answers. -/
theorem C6_scoring_correct_witness :
    (∃ r : Response,
      (submit_test fxDB fxSubScenario).2.responses = fxDB.responses ++ [r] ∧
      r.score =
        (fxSubScenario.answers.countP (answerCorrect fxTest2.questions_data) : Int) ∧
      r.answers.length =
        fxSubScenario.answers.countP (answerMatches fxTest2.questions_data)) ∧
    fxSubScenario.answers.countP (answerCorrect fxTest2.questions_data) = 1 ∧
    answerCorrect fxTest2.questions_data
      { questionId := "1", selected := "a" } = true :=
  ⟨C6_scoring_correct fxDB fxSubScenario fxTest2 rfl rfl, rfl, rfl⟩

/-- C7: a submission rejected by any of the four validations (blank name,
unknown test code, answer-count mismatch, blank selected option) yields a
non-200 outcome, and every non-200 outcome leaves the store exactly as it
was: no Candidate or Response row is created, with no partial writes. -/
theorem C7_rejection_no_writes (db : DB) (sub : CandidateCreate) :
    ((pyBlank sub.name = true ∨
      db.tests.find? (fun t => t.test_code == sub.testId) = none ∨
      (∀ test, db.tests.find? (fun t => t.test_code == sub.testId) = some test →
        sub.answers.length ≠ test.questions_data.length) ∨
      firstUnanswered sub.answers 1 ≠ none) →
      (submit_test db sub).1.isOk = false) ∧
    ((submit_test db sub).1.isOk = false → (submit_test db sub).2 = db) := by
  refine ⟨?_, submit_test_rejected_state db sub⟩
  intro hrej
  by_contra hok
  rw [Bool.not_eq_false] at hok
  obtain ⟨test, hfind, hname, hlen, hfu, _⟩ := submit_test_ok_shape db sub hok
  rcases hrej with h | h | h | h
  · rw [hname] at h
    exact absurd h (by simp)
  · rw [hfind] at h
    exact absurd h (by simp)
  · exact h test hfind hlen
  · exact h hfu

/-- C7 witness: the blank-name rejection against `fxDB` creates nothing. -/
theorem C7_rejection_no_writes_witness :
    (submit_test fxDB fxSubBlankName).1.isOk = false ∧
    (submit_test fxDB fxSubBlankName).2 = fxDB :=
  ⟨(C7_rejection_no_writes fxDB fxSubBlankName).1 (Or.inl rfl),
   (C7_rejection_no_writes fxDB fxSubBlankName).2
     ((C7_rejection_no_writes fxDB fxSubBlankName).1 (Or.inl rfl))⟩

/-- An accepted submission either leaves the candidates table untouched
(email already present) or appends exactly one new candidate with the
trimmed submitted name. -/
theorem submit_ok_candidates (db : DB) (sub : CandidateCreate)
    (hok : (submit_test db sub).1.isOk = true) :
    ((submit_test db sub).2.candidates = db.candidates ∧
      db.candidates.find? (fun c => c.email == sub.email) ≠ none) ∨
    ((submit_test db sub).2.candidates = db.candidates ++
        [{ id := db.nextCandidateId, name := pyStrip sub.name
           email := sub.email }] ∧
      db.candidates.find? (fun c => c.email == sub.email) = none) := by
  obtain ⟨test, hfind, _, _, _, heq⟩ := submit_test_ok_shape db sub hok
  rw [heq]
  rcases acceptSubmission_candidates db sub test with ⟨hN, hc⟩ | ⟨c, hS, hc⟩
  · exact Or.inr ⟨hc, hN⟩
  · exact Or.inl ⟨hc, by rw [hS]; simp⟩

/-- An accepted submission appends exactly one response row. -/
theorem submit_ok_responses_len (db : DB) (sub : CandidateCreate)
    (hok : (submit_test db sub).1.isOk = true) :
    (submit_test db sub).2.responses.length = db.responses.length + 1 := by
  obtain ⟨test, hfind, _, _, _, heq⟩ := submit_test_ok_shape db sub hok
  rw [heq]
  obtain ⟨r, hresp, _, _, _, _⟩ := acceptSubmission_responses db sub test
  rw [hresp]
  simp

/-- Replaying accepted submissions under email `e` when exactly one
candidate row `c0` carries `e` keeps exactly that row (same name) and adds
one response per submission. -/
theorem runSubmissions_preserves (e : String) (c0 : Candidate) :
    ∀ (subs : List CandidateCreate) (db : DB),
      (∀ x ∈ subs, x.email = e) → allAccepted db subs →
      db.candidates.filter (fun c => c.email == e) = [c0] →
      (runSubmissions db subs).candidates.filter (fun c => c.email == e) = [c0] ∧
      (runSubmissions db subs).responses.length =
        db.responses.length + subs.length := by
  intro subs
  induction subs with
  | nil =>
      intro db _ _ hone
      exact ⟨hone, by simp [runSubmissions]⟩
  | cons s rest ih =>
      intro db hemail hacc hone
      obtain ⟨hok, hacc2⟩ := hacc
      have hse : s.email = e := hemail s (List.mem_cons_self s rest)
      have hfind : db.candidates.find? (fun c => c.email == s.email) ≠ none := by
        rw [hse]
        intro hN
        rw [List.find?_eq_none] at hN
        have hmem : c0 ∈ db.candidates.filter (fun c => c.email == e) := by
          rw [hone]
          exact List.mem_singleton_self c0
        rw [List.mem_filter] at hmem
        exact absurd hmem.2 (hN c0 hmem.1)
      rcases submit_ok_candidates db s hok with ⟨hc, _⟩ | ⟨_, hN⟩
      · have step := ih (submit_test db s).2
          (fun x hx => hemail x (List.mem_cons_of_mem s hx)) hacc2
          (by rw [hc]; exact hone)
        have hlen := submit_ok_responses_len db s hok
        refine ⟨step.1, ?_⟩
        calc (runSubmissions (submit_test db s).2 rest).responses.length
            = (submit_test db s).2.responses.length + rest.length := step.2
          _ = db.responses.length + 1 + rest.length := by rw [hlen]
          _ = db.responses.length + (s :: rest).length := by
                simp [List.length_cons]
                omega
      · exact absurd hN hfind

/-- The first accepted submission under a fresh email creates exactly one
candidate row with the trimmed submitted name. -/
theorem first_submission_filter (db : DB) (s : CandidateCreate) (e : String)
    (hse : s.email = e)
    (hok : (submit_test db s).1.isOk = true)
    (hnone : db.candidates.filter (fun c => c.email == e) = []) :
    (submit_test db s).2.candidates.filter (fun c => c.email == e) =
      [{ id := db.nextCandidateId, name := pyStrip s.name, email := s.email }] := by
  rcases submit_ok_candidates db s hok with ⟨hc, hfind⟩ | ⟨hc, _⟩
  · exfalso
    rcases Option.ne_none_iff_exists'.mp hfind with ⟨c, hcc⟩
    have hp := List.find?_some hcc
    have hcm : c ∈ db.candidates := List.mem_of_find?_eq_some hcc
    have hmem : c ∈ db.candidates.filter (fun x => x.email == e) :=
      List.mem_filter.mpr ⟨hcm, by rw [← hse]; exact hp⟩
    rw [hnone] at hmem
    exact absurd hmem (List.not_mem_nil c)
  · rw [hc, List.filter_append, hnone]
    simp [List.filter_cons, hse]

/-- C8: replaying N accepted submissions under one fresh email leaves
exactly one Candidate row for that email — named with the FIRST submission's
trimmed name, later names are ignored — and creates exactly N Response
rows. -/
theorem C8_candidate_dedup (db : DB) (s : CandidateCreate)
    (rest : List CandidateCreate) (e : String)
    (hemail : ∀ x ∈ s :: rest, x.email = e)
    (hacc : allAccepted db (s :: rest))
    (hnone : db.candidates.filter (fun c => c.email == e) = []) :
    ((runSubmissions db (s :: rest)).candidates.filter
        (fun c => c.email == e)).map (fun c => c.name) = [pyStrip s.name] ∧
    (runSubmissions db (s :: rest)).responses.length =
      db.responses.length + (s :: rest).length := by
  obtain ⟨hok, hacc2⟩ := hacc
  have hse : s.email = e := hemail s (List.mem_cons_self s rest)
  have hfirst := first_submission_filter db s e hse hok hnone
  have hstep := runSubmissions_preserves e
      { id := db.nextCandidateId, name := pyStrip s.name, email := s.email }
      rest (submit_test db s).2
      (fun x hx => hemail x (List.mem_cons_of_mem s hx)) hacc2 hfirst
  constructor
  · show ((runSubmissions (submit_test db s).2 rest).candidates.filter
        (fun c => c.email == e)).map (fun c => c.name) = [pyStrip s.name]
    rw [hstep.1]
    rfl
  · show (runSubmissions (submit_test db s).2 rest).responses.length =
      db.responses.length + (s :: rest).length
    rw [hstep.2, submit_ok_responses_len db s hok]
    simp [List.length_cons]
    omega

/-- C8 witness: two accepted submissions under ann@example.com with names
"Ann" then "Anna" leave one candidate named "Ann" and two responses. -/
theorem C8_candidate_dedup_witness :
    ((runSubmissions fxDB [fxSubR1, fxSubR2]).candidates.filter
        (fun c => c.email == "ann@example.com")).map (fun c => c.name)
      = [pyStrip fxSubR1.name] ∧
    (runSubmissions fxDB [fxSubR1, fxSubR2]).responses.length =
      fxDB.responses.length + ([fxSubR1, fxSubR2] : List CandidateCreate).length :=
  C8_candidate_dedup fxDB fxSubR1 [fxSubR2] "ann@example.com"
    (by decide) ⟨rfl, rfl, True.intro⟩ rfl

/-- The per-row percentage emitted by the aggregate listing is the field
computed by `aggScorePercentage` over the row's stored answers. -/
theorem listRow_score_percentage (db : DB) (r : Response)
    (item : CandidateListItem) (h : listRow db r = some item) :
    item.score_percentage = aggScorePercentage r.score r.answers.length := by
  unfold listRow at h
  cases hc : db.candidates.find? (fun c => c.id == r.candidate_id) with
  | none => rw [hc] at h; simp at h
  | some candidate =>
      rw [hc] at h
      cases ht : db.tests.find? (fun t => t.id == r.test_id) with
      | none => rw [ht] at h; simp at h
      | some test =>
          rw [ht] at h
          injection h with h2
          rw [← h2]

/-- C9 amended: the aggregate listing reports `int(correct/total*100)`
(truncation toward zero), not `round(·, 2)`; the single-result computation
reports `round(correct/total*100, 2)`; both report 0 when the stored answer
list is empty, the division being guarded. -/
theorem C9_amended_percentages (db : DB) (r : Response)
    (item : CandidateListItem) (h : listRow db r = some item) :
    (item.score_percentage =
      if r.answers.length = 0 then 0
      else pyInt ((r.score : ℚ) / (r.answers.length : ℚ) * 100)) ∧
    (r.answers.length = 0 → item.score_percentage = 0) ∧
    (∀ (correct : Int) (total : Nat),
      round2 (singleScorePercentage correct total) =
        if total = 0 then 0
        else round2 ((correct : ℚ) / (total : ℚ) * 100)) := by
  have hfield := listRow_score_percentage db r item h
  have hagg : ∀ (c : Int) (t : Nat), aggScorePercentage c t =
      if t = 0 then 0 else pyInt ((c : ℚ) / (t : ℚ) * 100) := by
    intro c t
    unfold aggScorePercentage
    rcases Nat.eq_zero_or_pos t with h0 | hpos
    · simp [h0]
    · rw [if_pos hpos, if_neg (Nat.pos_iff_ne_zero.mp hpos)]
  have hr20 : round2 0 = 0 := by
    unfold round2 pyRoundHalfEven
    norm_num
  refine ⟨?_, ?_, ?_⟩
  · rw [hfield, hagg]
  · intro h0
    rw [hfield, hagg, if_pos h0]
  · intro correct total
    rcases Nat.eq_zero_or_pos total with h0 | hpos
    · subst h0
      unfold singleScorePercentage
      simpa using hr20
    · unfold singleScorePercentage
      rw [if_pos hpos, if_neg (Nat.pos_iff_ne_zero.mp hpos)]

/-- C9 amended witness: the single listing row of `fxDB9` (score 1 of 3)
carries the truncated percentage. -/
theorem C9_amended_percentages_witness :
    ({ id := 1, name := "Cy", email := "cy@example.com"
       test_code := "TEST-00000001", score := "1/3"
       score_percentage := aggScorePercentage 1 3
       time_taken_formatted := "01:30", created_at := 5 } :
         CandidateListItem).score_percentage =
      if fxResp9.answers.length = 0 then 0
      else pyInt ((fxResp9.score : ℚ) / (fxResp9.answers.length : ℚ) * 100) :=
  (C9_amended_percentages fxDB9 fxResp9 _ rfl).1

/-- C9 counterexample: for the stored response scoring 1 of 3, the aggregate
listing reports `score_percentage = 33` (`int()` truncation) while
`round(1/3*100, 2) = 33.33` — the claim's formula does not hold for the
aggregate-listing computation. -/
theorem C9_counterexample :
    get_all_results fxDB9 none = .ok
      [{ id := 1, name := "Cy", email := "cy@example.com"
         test_code := "TEST-00000001", score := "1/3"
         score_percentage := aggScorePercentage 1 3
         time_taken_formatted := "01:30", created_at := 5 }] ∧
    aggScorePercentage 1 3 = 33 ∧
    round2 ((1 : ℚ) / 3 * 100) = 3333 / 100 ∧
    ((aggScorePercentage 1 3 : ℚ) ≠ round2 ((1 : ℚ) / 3 * 100)) := by
  have h1 : aggScorePercentage 1 3 = 33 := by
    unfold aggScorePercentage pyInt
    rw [if_pos (by norm_num), if_neg (by norm_num)]
    rw [Int.floor_eq_iff]
    norm_num
  have h2 : round2 ((1 : ℚ) / 3 * 100) = 3333 / 100 := by
    have hq : ((1 : ℚ) / 3 * 100) * 100 = 10000 / 3 := by ring
    have hfl : ⌊((1 : ℚ) / 3 * 100) * 100⌋ = 3333 := by
      rw [hq, Int.floor_eq_iff]
      norm_num
    unfold round2 pyRoundHalfEven
    rw [hfl, if_pos (by rw [hq]; norm_num)]
    norm_num
  refine ⟨rfl, h1, h2, ?_⟩
  rw [h1, h2]
  norm_num

/-- Every hex digit uppercases into the uppercase-hexadecimal alphabet. -/
theorem hexDigitChar_upper_mem :
    ∀ n : Fin 16, Char.toUpper (hexDigitChar n) ∈ upperHexChars := by decide

/-- C10: every generated code is `TEST-` followed by exactly 8 uppercase
hexadecimal characters; whenever the retry loop returns a code it is one
generated from the random stream and differs from the `test_code` of every
already-stored test; and a collision makes the loop regenerate and re-check
with the next draw. -/
theorem C10_code_format_and_uniqueness :
    (∀ u : UuidHex, ∃ ds : List Char,
        generate_test_code u = "TEST-" ++ String.mk ds ∧ ds.length = 8 ∧
        ∀ ch ∈ ds, ch ∈ upperHexChars) ∧
    (∀ (tests : List Test) (uuids : Nat → UuidHex) (fuel i : Nat)
        (code : String),
        uniqueTestCode tests uuids fuel i = some code →
        (∀ t ∈ tests, t.test_code ≠ code) ∧
        ∃ j, code = generate_test_code (uuids j)) ∧
    (∀ (tests : List Test) (uuids : Nat → UuidHex) (fuel i : Nat),
        tests.any (fun t => t.test_code == generate_test_code (uuids i)) = true →
        uniqueTestCode tests uuids (fuel + 1) i =
          uniqueTestCode tests uuids fuel (i + 1)) := by
  refine ⟨?_, ?_, ?_⟩
  · intro u
    refine ⟨((u.val.take 8).map hexDigitChar).map Char.toUpper, rfl, ?_, ?_⟩
    · simp [List.length_take, u.property]
    · intro ch hch
      simp only [List.mem_map] at hch
      obtain ⟨c, ⟨n, hn, rfl⟩, rfl⟩ := hch
      exact hexDigitChar_upper_mem n
  · intro tests uuids fuel
    induction fuel with
    | zero =>
        intro i code h
        simp [uniqueTestCode] at h
    | succ fuel ih =>
        intro i code h
        unfold uniqueTestCode at h
        by_cases hcoll :
          tests.any (fun t => t.test_code == generate_test_code (uuids i)) = true
        · rw [if_pos hcoll] at h
          exact ih (i + 1) code h
        · rw [if_neg hcoll] at h
          injection h with h2
          subst h2
          constructor
          · intro t ht heq
            apply hcoll
            rw [List.any_eq_true]
            refine ⟨t, ht, ?_⟩
            rw [heq]
            exact beq_self_eq_true _
          · exact ⟨i, rfl⟩
  · intro tests uuids fuel i h
    show (if (tests.any fun t => t.test_code == generate_test_code (uuids i)) = true
        then uniqueTestCode tests uuids fuel (i + 1)
        else some (generate_test_code (uuids i)))
      = uniqueTestCode tests uuids fuel (i + 1)
    rw [if_pos h]

/-- C10 witness: against a store holding code `TEST-00000000`, a stream
whose first draw collides regenerates once and returns the distinct code
`TEST-10000000`. -/
theorem C10_witness :
    ((∀ t ∈ [fxTestZero], t.test_code ≠ "TEST-10000000") ∧
      ∃ j, "TEST-10000000" = generate_test_code (fxStream j)) ∧
    uniqueTestCode [fxTestZero] fxStream 2 0 =
      uniqueTestCode [fxTestZero] fxStream 1 1 :=
  ⟨C10_code_format_and_uniqueness.2.1 [fxTestZero] fxStream 2 0
      "TEST-10000000" rfl,
   C10_code_format_and_uniqueness.2.2 [fxTestZero] fxStream 1 0 rfl⟩
